import Mathlib

/-!
Verification development for the rule-compliance analyzer described by the
specification shipped with the `connascence-safety-analyzer` corpus.

The repository ships the two fixture translation units
`demo/nasa_jpl/sample_violations.c` and `demo/nasa_jpl/sample_compliant.c`.
The fact-extraction and rule-evaluation engines themselves are not part of the
shipped sources, so every engine definition below is modelled from the
specification text (its doc comment says so); the fixture functions are
embedded from the C sources, line numbers included.
-/

mutual
/-- Modelled from the spec: the SyntaxModel collaborator supplies a walkable
expression tree. -/
inductive CExpr where
  | intLit (n : Int)
  | strLit (s : String)
  | ident (name : String)
  | binop (op : String) (l r : CExpr)
  | unop (op : String) (e : CExpr)
  | call (callee : String) (args : CExprList)
  | index (arr idx : CExpr)
  | assignE (lhs rhs : CExpr)
  deriving DecidableEq
/-- Modelled from the spec: the argument list of a call expression. -/
inductive CExprList where
  | nil
  | cons (hd : CExpr) (tl : CExprList)
  deriving DecidableEq
end

/-- Modelled from the spec: statement tree with source locations (line
numbers).  Blocks are right-nested `seq` chains. -/
inductive CStmt where
  | skip
  | seq (a b : CStmt)
  | declS (loc : Nat) (name : String) (ptrDepth : Nat) (init : Option CExpr)
  | expr (loc : Nat) (e : CExpr)
  | ifS (loc : Nat) (cond : CExpr) (thenB elseB : CStmt)
  | forS (loc : Nat) (cond : Option CExpr) (body : CStmt)
  | whileS (loc : Nat) (cond : CExpr) (body : CStmt)
  | doWhileS (loc : Nat) (body : CStmt) (cond : CExpr)
  | gotoS (loc : Nat) (target : String)
  | labelS (loc : Nat) (name : String)
  | breakS (loc : Nat)
  | continueS (loc : Nat)
  | returnS (loc : Nat) (e : Option CExpr)
  deriving DecidableEq

/-- Modelled from the spec: `bound_source` of a `LoopShape`
(`{LiteralConstant, NamedConstant, VariableExpression, None}`). -/
inductive BoundSource where
  | literalConstant
  | namedConstant
  | variableExpression
  | noBound
  deriving DecidableEq

/-- Modelled from the spec: `LoopShape` record of `StructuralFacts.loops`. -/
structure LoopShape where
  has_explicit_bound : Bool
  bound_source : BoundSource
  contains_goto_backedge : Bool
  deriving DecidableEq

/-- Modelled from the spec: a classified loop together with the source line of
its header. -/
structure LoopInfo where
  shape : LoopShape
  loc : Nat
  deriving DecidableEq

/-- Comparison operators recognised when scanning a loop condition for a
statically visible iteration ceiling. -/
def isCmpOp (op : String) : Bool :=
  op == "<" || op == "<=" || op == ">" || op == ">="

/-- Preference order used to merge bound classifications of the conjuncts of a
loop condition: a literal ceiling beats a named constant beats a plain
variable comparison beats no comparison at all. -/
def bsRank : BoundSource → Nat
  | .literalConstant => 3
  | .namedConstant => 2
  | .variableExpression => 1
  | .noBound => 0

/-- Merge of two bound classifications, keeping the stronger one. -/
def bsJoin (a b : BoundSource) : BoundSource :=
  if bsRank b ≤ bsRank a then a else b

/-- Is the expression a literal constant operand? -/
def isLitOperand : CExpr → Bool
  | .intLit _ => true
  | _ => false

/-- Is the expression a symbol proven constant (a name from the translation
unit's known-constant set, per the simple def-use check of the spec)? -/
def isConstOperand (consts : List String) : CExpr → Bool
  | .ident n => consts.contains n
  | _ => false

/-- Modelled from the spec: inspect the controlling condition's
sub-expressions; a comparison against a literal or a symbol proven constant
yields an explicit bound.  Call arguments are opaque to this scan. -/
def condBound (consts : List String) : CExpr → BoundSource
  | .binop op l r =>
    if isCmpOp op then
      if isLitOperand l || isLitOperand r then .literalConstant
      else if isConstOperand consts l || isConstOperand consts r then .namedConstant
      else .variableExpression
    else bsJoin (condBound consts l) (condBound consts r)
  | .unop _ e => condBound consts e
  | _ => .noBound

/-- Modelled from the spec: classification of a structured loop from its
controlling condition alone (`for(;;)` has no condition and is unbounded). -/
def classifyLoop (consts : List String) : Option CExpr → LoopShape
  | none => ⟨false, .noBound, false⟩
  | some c =>
    let bs := condBound consts c
    ⟨bs == .literalConstant || bs == .namedConstant, bs, false⟩

/-- Modelled from the spec: structured loops (`for`/`while`/`do`) collected in
source order, each classified from its condition. -/
def extractLoops (consts : List String) : CStmt → List LoopInfo
  | .seq a b => extractLoops consts a ++ extractLoops consts b
  | .ifS _ _ t e => extractLoops consts t ++ extractLoops consts e
  | .forS loc cond body => ⟨classifyLoop consts cond, loc⟩ :: extractLoops consts body
  | .whileS loc cond body => ⟨classifyLoop consts (some cond), loc⟩ :: extractLoops consts body
  | .doWhileS loc body cond => ⟨classifyLoop consts (some cond), loc⟩ :: extractLoops consts body
  | _ => []

/-- Labels declared in a statement, with their lines. -/
def labelsOf : CStmt → List (String × Nat)
  | .seq a b => labelsOf a ++ labelsOf b
  | .ifS _ _ t e => labelsOf t ++ labelsOf e
  | .forS _ _ body => labelsOf body
  | .whileS _ _ body => labelsOf body
  | .doWhileS _ body _ => labelsOf body
  | .labelS loc n => [(n, loc)]
  | _ => []

/-- Goto statements in a statement, with target label and line. -/
def gotosOf : CStmt → List (String × Nat)
  | .seq a b => gotosOf a ++ gotosOf b
  | .ifS _ _ t e => gotosOf t ++ gotosOf e
  | .forS _ _ body => gotosOf body
  | .whileS _ _ body => gotosOf body
  | .doWhileS _ body _ => gotosOf body
  | .gotoS loc t => [(t, loc)]
  | _ => []

/-- Modelled from the spec: loops formed by `goto` back-edges, one per label
that is the target of a goto at or below it; such loops are always
`contains_goto_backedge = true` and never bounded. -/
def gotoLoops (s : CStmt) : List LoopInfo :=
  (labelsOf s).filterMap fun lab =>
    if (gotosOf s).any (fun g => g.1 == lab.1 && lab.2 ≤ g.2) then
      some ⟨⟨false, .noBound, true⟩, lab.2⟩
    else none

/-- Modelled from the spec: the `loops` fact of a function body — structured
loops followed by goto-formed cycles. -/
def allLoops (consts : List String) (s : CStmt) : List LoopInfo :=
  extractLoops consts s ++ gotoLoops s

/-- Does the function body contain any goto statement? -/
def usesGoto (s : CStmt) : Bool :=
  !(gotosOf s).isEmpty

mutual
/-- Callees of every call expression occurring in an expression. -/
def callsExpr : CExpr → List String
  | .binop _ l r => callsExpr l ++ callsExpr r
  | .unop _ e => callsExpr e
  | .call f args => f :: callsList args
  | .index a i => callsExpr a ++ callsExpr i
  | .assignE l r => callsExpr l ++ callsExpr r
  | _ => []
/-- Callees of every call expression occurring in an argument list. -/
def callsList : CExprList → List String
  | .nil => []
  | .cons e t => callsExpr e ++ callsList t
end

/-- Callees of an optional expression. -/
def callsOpt : Option CExpr → List String
  | none => []
  | some e => callsExpr e

/-- Callees of every call site in a statement, in source order. -/
def callsStmt : CStmt → List String
  | .seq a b => callsStmt a ++ callsStmt b
  | .declS _ _ _ init => callsOpt init
  | .expr _ e => callsExpr e
  | .ifS _ c t e => callsExpr c ++ callsStmt t ++ callsStmt e
  | .forS _ c body => callsOpt c ++ callsStmt body
  | .whileS _ c body => callsExpr c ++ callsStmt body
  | .doWhileS _ body c => callsStmt body ++ callsExpr c
  | .returnS _ e => callsOpt e
  | _ => []

/-- Modelled from the spec: a translation unit as seen by the
CallGraphBuilder — function names paired with their bodies. -/
def CUnit := List (String × CStmt)

/-- Callees of a unit function that are themselves defined in the unit;
unresolved callees are edges to the external sink and never contribute to
cycles. -/
def definedCallees (unit : CUnit) (f : String) : List String :=
  match (List.find? (fun p => p.1 == f) unit) with
  | none => []
  | some p => (callsStmt p.2).filter (fun g => (unit.map Prod.fst).contains g)

/-- One breadth step of call-graph reachability inside the unit. -/
def reachStep (unit : CUnit) (acc : List String) : List String :=
  acc ++ (acc.flatMap (definedCallees unit)).filter (fun g => !acc.contains g)

/-- Fuelled reachability closure over the unit call graph. -/
def reachAux (unit : CUnit) : Nat → List String → List String
  | 0, acc => acc
  | n + 1, acc => reachAux unit n (reachStep unit acc)

/-- Functions reachable from the callees of `f` (so `f` itself appears only
when the graph loops back to it). -/
def reachFromCallees (unit : CUnit) (f : String) : List String :=
  reachAux unit (unit.length + 1) (definedCallees unit f)

/-- Modelled from the spec: direct recursion is a self-edge in the call
graph. -/
def directlyRecursive (unit : CUnit) (f : String) : Bool :=
  (definedCallees unit f).contains f

/-- Modelled from the spec: mutual recursion is a call-graph cycle of length
at least two through `f`. -/
def mutuallyRecursive (unit : CUnit) (f : String) : Bool :=
  (definedCallees unit f).any fun g =>
    g != f && ((g == f) || (reachFromCallees unit g).contains f)

/-- Modelled from the spec: `AllocatorKind` of an `allocation_calls` entry. -/
inductive AllocatorKind where
  | malloc
  | calloc
  | realloc
  | free
  deriving DecidableEq

/-- Modelled from the spec: an allocation call site. -/
structure AllocCall where
  kind : AllocatorKind
  loc : Nat
  deriving DecidableEq

/-- Modelled from the spec: how a call's result is consumed, the input of the
checkedness test of §4.1. -/
inductive ResultUsage where
  | discarded
  | assignedTested
  | assignedUntested
  | conditionSubject
  | returned
  | passedOnward
  deriving DecidableEq

/-- Modelled from the spec: summary of one call site — callee, line, result
usage, first downstream use of the (assigned) result, and the return-type
facts that make a callee fallible. -/
structure CallSummary where
  callee : String
  loc : Nat
  usage : ResultUsage
  firstUseLoc : Option Nat
  returnsPointer : Bool
  returnsStatusInt : Bool
  deriving DecidableEq

/-- Modelled from the spec: an entry of `unchecked_fallible_calls`. -/
structure UncheckedCall where
  callee : String
  loc : Nat
  firstUseLoc : Option Nat
  deriving DecidableEq

/-- Modelled from the spec: a call's result is checked when it is assigned to
a variable later tested in a conditional, used directly as a conditional's
subject, or returned. -/
def isCheckedUsage : ResultUsage → Bool
  | .assignedTested => true
  | .conditionSubject => true
  | .returned => true
  | _ => false

/-- Modelled from the spec: recognized configuration options; integer fields
so that nonsensical negative thresholds are representable. -/
structure Config where
  max_statement_count : Int := 60
  max_nesting_depth : Int := 4
  max_parameter_count : Int := 5
  max_global_count : Int := 10
  fallible_callee_names : List String :=
    ["malloc", "calloc", "realloc", "fopen", "fread", "fwrite", "fclose"]
  deriving DecidableEq

/-- Default configuration of §6. -/
def defaultConfig : Config := {}

/-- Modelled from the spec: a callee is fallible when it is in the configured
fallible set, or its return type is a pointer or an int used as a status
code. -/
def isFallible (cfg : Config) (c : CallSummary) : Bool :=
  cfg.fallible_callee_names.contains c.callee || c.returnsPointer || c.returnsStatusInt

/-- Modelled from the spec: the `unchecked_fallible_calls` fact — fallible
calls whose result is never checked. -/
def uncheckedFallibleCalls (cfg : Config) (cs : List CallSummary) : List UncheckedCall :=
  cs.filterMap fun c =>
    if isFallible cfg c && !isCheckedUsage c.usage then
      some ⟨c.callee, c.loc, c.firstUseLoc⟩
    else none

/-- Modelled from the spec: the per-function `StructuralFacts` record of §3. -/
structure StructuralFacts where
  directly_recursive : Bool
  mutually_recursive : Bool
  loops : List LoopInfo
  uses_goto : Bool
  goto_target_count : Nat
  max_pointer_depth : Nat
  has_pointer_arithmetic : Bool
  statement_count : Nat
  max_nesting_depth : Nat
  parameter_count : Nat
  assertion_count : Nat
  validated_parameter_count : Nat
  allocation_calls : List AllocCall
  is_in_init_phase : Bool
  unchecked_fallible_calls : List UncheckedCall
  macro_complexity_score : Nat
  global_references : List String
  warning_construct_locs : List Nat
  deriving DecidableEq

/-- Modelled from the spec: `FunctionSymbol` identity (name and definition
line suffice for the properties verified here). -/
structure FunctionSymbol where
  name : String
  loc : Nat
  deriving DecidableEq

/-- Modelled from the spec: violation severity. -/
inductive Severity where
  | error
  | warning
  deriving DecidableEq

/-- Modelled from the spec: violation confidence. -/
inductive Confidence where
  | certain
  | heuristic
  deriving DecidableEq

/-- Modelled from the spec: an immutable `Violation` record; `rootLoc` is the
root-cause statement used by the deduplication of §4.1. -/
structure Violation where
  rule_id : Nat
  function : String
  location : Nat
  rootLoc : Nat
  severity : Severity
  confidence : Confidence
  message : String
  deriving DecidableEq

/-- Helper building a violation record. -/
def mkV (k : Nat) (fn : String) (loc root : Nat) (sev : Severity)
    (conf : Confidence) (msg : String) : Violation :=
  ⟨k, fn, loc, root, sev, conf, msg⟩

/-- Modelled from the spec: Rule 1 — no unstructured control transfer; one
violation for a recursion cycle, one for goto use. -/
def rule1 (sym : FunctionSymbol) (f : StructuralFacts) : List Violation :=
  (if f.directly_recursive || f.mutually_recursive then
    [mkV 1 sym.name sym.loc sym.loc .error .certain "recursion cycle"]
  else []) ++
  (if f.uses_goto then
    [mkV 1 sym.name sym.loc sym.loc .error .certain "goto used"]
  else [])

/-- Modelled from the spec: Rule 2 — one violation per loop without an
explicit bound, at the loop header. -/
def rule2 (sym : FunctionSymbol) (f : StructuralFacts) : List Violation :=
  f.loops.filterMap fun li =>
    if li.shape.has_explicit_bound then none
    else some (mkV 2 sym.name li.loc li.loc .warning .certain "unbounded loop")

/-- Modelled from the spec: Rule 3 — no malloc/calloc/realloc outside the
init phase, one violation per allocation call site. -/
def rule3 (sym : FunctionSymbol) (f : StructuralFacts) : List Violation :=
  f.allocation_calls.filterMap fun a =>
    if (a.kind == .malloc || a.kind == .calloc || a.kind == .realloc)
        && !f.is_in_init_phase then
      some (mkV 3 sym.name a.loc a.loc .error .certain "allocation after init")
    else none

/-- Modelled from the spec: Rule 4 — size/complexity thresholds from the
configuration. -/
def rule4 (cfg : Config) (sym : FunctionSymbol) (f : StructuralFacts) : List Violation :=
  if cfg.max_statement_count < (f.statement_count : Int)
      || cfg.max_nesting_depth < (f.max_nesting_depth : Int)
      || cfg.max_parameter_count < (f.parameter_count : Int) then
    [mkV 4 sym.name sym.loc sym.loc .warning .heuristic "size or complexity bound exceeded"]
  else []

/-- Modelled from the spec: Rule 5, assertion clause — no assertions with
parameters present, or parameters not all validated. -/
def rule5assert (sym : FunctionSymbol) (f : StructuralFacts) : List Violation :=
  if (f.assertion_count == 0 && 0 < f.parameter_count)
      || f.validated_parameter_count < f.parameter_count then
    [mkV 5 sym.name sym.loc sym.loc .warning .certain "missing defensive assertions"]
  else []

/-- Modelled from the spec: Rule 5, downstream clause — a use of a value
obtained from an unchecked fallible call is a missing-validation candidate,
rooted at the unchecked acquisition. -/
def rule5downstream (sym : FunctionSymbol) (f : StructuralFacts) : List Violation :=
  f.unchecked_fallible_calls.filterMap fun c =>
    match c.firstUseLoc with
    | some u => some (mkV 5 sym.name u c.loc .warning .certain "use of unvalidated fallible result")
    | none => none

/-- Modelled from the spec: Rule 7 — one violation per unchecked fallible
call, located at the first use after the unchecked acquisition when one
exists, otherwise at the call itself; rooted at the acquisition. -/
def rule7 (sym : FunctionSymbol) (f : StructuralFacts) : List Violation :=
  f.unchecked_fallible_calls.map fun c =>
    mkV 7 sym.name (c.firstUseLoc.getD c.loc) c.loc .warning .certain "fallible result not checked"

/-- Modelled from the spec: Rule 8 — any macro of positive structural
complexity expanded in the function. -/
def rule8 (sym : FunctionSymbol) (f : StructuralFacts) : List Violation :=
  if 0 < f.macro_complexity_score then
    [mkV 8 sym.name sym.loc sym.loc .warning .certain "complex macro expansion"]
  else []

/-- Modelled from the spec: Rule 9 — pointer depth above two or pointer
arithmetic. -/
def rule9 (sym : FunctionSymbol) (f : StructuralFacts) : List Violation :=
  if 2 < f.max_pointer_depth || f.has_pointer_arithmetic then
    [mkV 9 sym.name sym.loc sym.loc .error .certain "pointer indirection or arithmetic"]
  else []

/-- Modelled from the spec: Rule 10 — heuristic warning-producing
constructs, one violation per recorded site. -/
def rule10 (sym : FunctionSymbol) (f : StructuralFacts) : List Violation :=
  f.warning_construct_locs.map fun l =>
    mkV 10 sym.name l l .warning .heuristic "warning-producing construct"

/-- Candidate violations of one function before deduplication, rules in
order. -/
def ruleCandidates (cfg : Config) (sym : FunctionSymbol) (f : StructuralFacts) : List Violation :=
  rule1 sym f ++ rule2 sym f ++ rule3 sym f ++ rule4 cfg sym f ++
  rule5assert sym f ++ rule5downstream sym f ++ rule7 sym f ++
  rule8 sym f ++ rule9 sym f ++ rule10 sym f

/-- Root-cause locations of the unchecked fallible calls; every such root
carries a Rule-7 violation. -/
def uncheckedRoots (f : StructuralFacts) : List Nat :=
  f.unchecked_fallible_calls.map (fun c => c.loc)

/-- Modelled from the spec: deduplication by (function, root-cause-location)
— when Rule 5 and Rule 7 would cite the identical statement, the Rule-5
candidate is dropped, leaving the single Rule-7 report at the downstream
use. -/
def dedupByRoot (f : StructuralFacts) (vs : List Violation) : List Violation :=
  vs.filter fun v => !(v.rule_id == 5 && (uncheckedRoots f).contains v.rootLoc)

/-- Modelled from the spec: per-function rule evaluation — the candidate
violations of the ten rule predicates, deduplicated by root cause. -/
def evalFunction (cfg : Config) (sym : FunctionSymbol) (f : StructuralFacts) : List Violation :=
  dedupByRoot f (ruleCandidates cfg sym f)

/-- Modelled from the spec: Rule 6 — the aggregate `total_global_count`
against the configured ceiling, reported once per translation unit. -/
def rule6 (cfg : Config) (totalGlobals : Nat) : List Violation :=
  if cfg.max_global_count < (totalGlobals : Int) then
    [mkV 6 "<translation unit>" 0 0 .warning .heuristic "too many globals"]
  else []

/-- Modelled from the spec: stable report order — source location ascending,
then rule id ascending. -/
def violLE (v w : Violation) : Bool :=
  Nat.blt v.location w.location ||
    (v.location == w.location && Nat.ble v.rule_id w.rule_id)

/-- Modelled from the spec: the RuleEngine — a pure function from the facts
of all functions plus the aggregate global count to an ordered violation
sequence. -/
def ruleEngine (cfg : Config) (funcs : List (FunctionSymbol × StructuralFacts))
    (totalGlobals : Nat) : List Violation :=
  ((funcs.flatMap fun p => evalFunction cfg p.1 p.2) ++ rule6 cfg totalGlobals).mergeSort violLE

/-- Modelled from the spec: `ConfigurationError`, fatal at analysis start. -/
inductive ConfigurationError where
  | negativeThreshold
  deriving DecidableEq

/-- Does the configuration contain a nonsensical negative threshold? -/
def configInvalid (cfg : Config) : Bool :=
  cfg.max_statement_count < 0 || cfg.max_nesting_depth < 0 ||
  cfg.max_parameter_count < 0 || cfg.max_global_count < 0

/-- Modelled from the spec: configuration validation, run before any function
is processed. -/
def validateConfig (cfg : Config) : Except ConfigurationError Unit :=
  if configInvalid cfg then .error .negativeThreshold else .ok ()

/-- Modelled from the spec: a whole analysis run — it refuses to run on a
nonsensical configuration and otherwise evaluates every function. -/
def analyze (cfg : Config) (funcs : List (FunctionSymbol × StructuralFacts))
    (totalGlobals : Nat) : Except ConfigurationError (List Violation) :=
  match validateConfig cfg with
  | .error e => .error e
  | .ok _ => .ok (ruleEngine cfg funcs totalGlobals)

/-- Builds an argument list from a Lean list. -/
def cargs : List CExpr → CExprList
  | [] => .nil
  | e :: t => .cons e (cargs t)

/-- Body of `factorial` (sample_violations.c lines 22-25): self-recursive,
no iteration. -/
def factorial_body : CStmt :=
  .seq
    (.ifS 23 (.binop "<=" (.ident "n") (.intLit 1)) (.returnS 23 (some (.intLit 1))) .skip)
    (.returnS 24 (some (.binop "*" (.ident "n")
      (.call "factorial" (cargs [.binop "-" (.ident "n") (.intLit 1)])))))

/-- Body of `process_data` (sample_violations.c lines 28-58): control flow
written entirely with labels and gotos, the only cycle being the goto
back-edges to `start_processing`. -/
def process_data_body : CStmt :=
  .seq (.declS 29 "i" 0 (some (.intLit 0)))
  (.seq (.declS 30 "errors" 0 (some (.intLit 0)))
  (.seq (.labelS 32 "start_processing")
  (.seq (.ifS 33 (.binop ">=" (.ident "i") (.ident "len"))
          (.gotoS 33 "end_processing") .skip)
  (.seq (.ifS 35 (.binop "==" (.index (.ident "data") (.ident "i")) (.intLit 0))
          (.seq (.expr 36 (.unop "++" (.ident "errors"))) (.gotoS 37 "error_handling")) .skip)
  (.seq (.ifS 40 (.binop "<" (.index (.ident "data") (.ident "i")) (.intLit 32))
          (.gotoS 41 "skip_char") .skip)
  (.seq (.expr 45 (.assignE
          (.index (.ident "global_buffer") (.unop "++" (.ident "global_counter")))
          (.index (.ident "data") (.ident "i"))))
  (.seq (.labelS 47 "skip_char")
  (.seq (.expr 48 (.unop "++" (.ident "i")))
  (.seq (.gotoS 49 "start_processing")
  (.seq (.labelS 51 "error_handling")
  (.seq (.expr 52 (.call "printf" (cargs [.strLit "Error at position %d\n", .ident "i"])))
  (.seq (.expr 53 (.unop "++" (.ident "i")))
  (.seq (.gotoS 54 "start_processing")
  (.seq (.labelS 56 "end_processing")
        (.returnS 57 (some (.ident "errors")))))))))))))))))

/-- Named constants of sample_compliant.c (its `#define` configuration
constants, lines 14-17). -/
def compliantConsts : List String :=
  ["MAX_BUFFER_SIZE", "MAX_FACTORIAL", "MAX_LOOP_ITERATIONS", "INIT_COMPLETE_MARKER"]

/-- Body of `safe_factorial` (sample_compliant.c lines 28-44): iterative,
with a `for` loop whose condition carries two conjunctive bound
comparisons. -/
def safe_factorial_body : CStmt :=
  .seq (.expr 30 (.call "assert" (cargs [.binop ">=" (.ident "n") (.intLit 0)])))
  (.seq (.expr 31 (.call "assert" (cargs [.binop "<=" (.ident "n") (.ident "MAX_FACTORIAL")])))
  (.seq (.ifS 33 (.binop "<=" (.ident "n") (.intLit 1)) (.returnS 33 (some (.intLit 1))) .skip)
  (.seq (.declS 35 "result" 0 (some (.intLit 1)))
  (.seq (.forS 37 (some (.binop "&&"
            (.binop "<=" (.ident "i") (.ident "n"))
            (.binop "<=" (.ident "i") (.ident "MAX_FACTORIAL"))))
          (.seq (.expr 38 (.assignE (.ident "result")
                  (.binop "*" (.ident "result") (.ident "i"))))
                (.expr 40 (.call "assert" (cargs [.binop ">" (.ident "result") (.intLit 0)])))))
        (.returnS 43 (some (.ident "result")))))))

/-- Embedded translation unit of sample_violations.c (the functions whose
bodies the claims inspect). -/
def violationsUnit : CUnit :=
  [("factorial", factorial_body), ("process_data", process_data_body)]

/-- Embedded translation unit of sample_compliant.c. -/
def compliantUnit : CUnit :=
  [("safe_factorial", safe_factorial_body)]

/-- Symbol of `factorial` (sample_violations.c line 22). -/
def factorial_sym : FunctionSymbol := ⟨"factorial", 22⟩

/-- StructuralFacts of `factorial`, extracted from its embedded body; the
hand-counted fields (sizes, parameters) are read off lines 22-25 of
sample_violations.c. -/
def factorial_facts : StructuralFacts where
  directly_recursive := directlyRecursive violationsUnit "factorial"
  mutually_recursive := mutuallyRecursive violationsUnit "factorial"
  loops := allLoops [] factorial_body
  uses_goto := usesGoto factorial_body
  goto_target_count := (labelsOf factorial_body).length
  max_pointer_depth := 0
  has_pointer_arithmetic := false
  statement_count := 2
  max_nesting_depth := 1
  parameter_count := 1
  assertion_count := 0
  validated_parameter_count := 1
  allocation_calls := []
  is_in_init_phase := false
  unchecked_fallible_calls := []
  macro_complexity_score := 0
  global_references := []
  warning_construct_locs := []

/-- Symbol of `safe_factorial` (sample_compliant.c line 28). -/
def safe_factorial_sym : FunctionSymbol := ⟨"safe_factorial", 28⟩

/-- StructuralFacts of `safe_factorial`, extracted from its embedded body
(sample_compliant.c lines 28-44; three assertions, parameter `n` validated
by the first two). -/
def safe_factorial_facts : StructuralFacts where
  directly_recursive := directlyRecursive compliantUnit "safe_factorial"
  mutually_recursive := mutuallyRecursive compliantUnit "safe_factorial"
  loops := allLoops compliantConsts safe_factorial_body
  uses_goto := usesGoto safe_factorial_body
  goto_target_count := (labelsOf safe_factorial_body).length
  max_pointer_depth := 0
  has_pointer_arithmetic := false
  statement_count := 7
  max_nesting_depth := 2
  parameter_count := 1
  assertion_count := 3
  validated_parameter_count := 1
  allocation_calls := []
  is_in_init_phase := false
  unchecked_fallible_calls := []
  macro_complexity_score := 0
  global_references := []
  warning_construct_locs := []

/-- Symbol of `process_data` (sample_violations.c line 28). -/
def process_data_sym : FunctionSymbol := ⟨"process_data", 28⟩

/-- StructuralFacts of `process_data`, extracted from its embedded body
(sample_violations.c lines 28-58; `char* data` gives pointer depth 1, the
body references the two globals it writes). -/
def process_data_facts : StructuralFacts where
  directly_recursive := directlyRecursive violationsUnit "process_data"
  mutually_recursive := mutuallyRecursive violationsUnit "process_data"
  loops := allLoops [] process_data_body
  uses_goto := usesGoto process_data_body
  goto_target_count := (labelsOf process_data_body).length
  max_pointer_depth := 1
  has_pointer_arithmetic := false
  statement_count := 15
  max_nesting_depth := 2
  parameter_count := 2
  assertion_count := 0
  validated_parameter_count := 0
  allocation_calls := []
  is_in_init_phase := false
  unchecked_fallible_calls := []
  macro_complexity_score := 0
  global_references := ["global_buffer", "global_counter"]
  warning_construct_locs := []

/-- Symbol of `log_processing_step` (sample_compliant.c line 271). -/
def log_step_sym : FunctionSymbol := ⟨"log_processing_step", 271⟩

/-- Call sites of `log_processing_step` (sample_compliant.c line 273): a
single `printf` whose int result is a character count, not a status code. -/
def log_step_calls : List CallSummary :=
  [⟨"printf", 273, .discarded, none, false, false⟩]

/-- StructuralFacts of `log_processing_step` (sample_compliant.c lines
271-275): two parameters, no assertions, no loops. -/
def log_step_facts : StructuralFacts where
  directly_recursive := false
  mutually_recursive := false
  loops := []
  uses_goto := false
  goto_target_count := 0
  max_pointer_depth := 0
  has_pointer_arithmetic := false
  statement_count := 2
  max_nesting_depth := 2
  parameter_count := 2
  assertion_count := 0
  validated_parameter_count := 0
  allocation_calls := []
  is_in_init_phase := false
  unchecked_fallible_calls := uncheckedFallibleCalls defaultConfig log_step_calls
  macro_complexity_score := 0
  global_references := []
  warning_construct_locs := []

/-- Symbol of the compliant `main` (sample_compliant.c line 339). -/
def main_compliant_sym : FunctionSymbol := ⟨"main", 339⟩

/-- Call sites of the compliant `main` (sample_compliant.c lines 339-389),
with how each result is consumed.  `process_runtime_request` and
`safe_array_operation` return int status codes that are discarded as bare
expression statements; `safe_processing_function` and `safe_file_operation`
results are assigned and tested. -/
def main_compliant_calls : List CallSummary :=
  [⟨"system_initialization", 341, .discarded, none, false, false⟩,
   ⟨"safe_factorial", 344, .assignedUntested, some 345, false, false⟩,
   ⟨"printf", 345, .discarded, none, false, false⟩,
   ⟨"safe_processing_function", 349, .assignedTested, some 352, false, true⟩,
   ⟨"printf", 353, .discarded, none, false, false⟩,
   ⟨"printf", 355, .discarded, none, false, false⟩,
   ⟨"process_runtime_request", 360, .discarded, none, false, true⟩,
   ⟨"safe_array_operation", 364, .discarded, none, false, true⟩,
   ⟨"safe_file_operation", 367, .assignedTested, some 368, false, true⟩,
   ⟨"printf", 369, .discarded, none, false, false⟩,
   ⟨"printf", 374, .discarded, none, false, false⟩,
   ⟨"safe_pointer_usage", 378, .discarded, none, false, false⟩,
   ⟨"printf", 379, .discarded, none, false, false⟩,
   ⟨"perform_operation", 382, .assignedUntested, some 383, false, false⟩,
   ⟨"printf", 383, .discarded, none, false, false⟩,
   ⟨"warning_free_function", 386, .discarded, none, false, false⟩]

/-- StructuralFacts of the compliant `main` (sample_compliant.c lines
339-389): no loops, no recursion, no parameters; the address-of uses give
pointer depth 1; the `MAX` macro expands to a single expression and scores
0. -/
def main_compliant_facts : StructuralFacts where
  directly_recursive := false
  mutually_recursive := false
  loops := []
  uses_goto := false
  goto_target_count := 0
  max_pointer_depth := 1
  has_pointer_arithmetic := false
  statement_count := 24
  max_nesting_depth := 2
  parameter_count := 0
  assertion_count := 0
  validated_parameter_count := 0
  allocation_calls := []
  is_in_init_phase := true
  unchecked_fallible_calls := uncheckedFallibleCalls defaultConfig main_compliant_calls
  macro_complexity_score := 0
  global_references := []
  warning_construct_locs := []

/-- Symbol of `unsafe_function` (sample_violations.c line 149). -/
def unsafe_function_sym : FunctionSymbol := ⟨"unsafe_function", 149⟩

/-- Call summary of the unchecked-acquisition construct of `unsafe_function`
(sample_violations.c lines 158-161): `fopen` at line 159 assigned to `file`
but never tested, first used by the `fprintf` at line 160. -/
def fopen_construct_calls : List CallSummary :=
  [⟨"fopen", 159, .assignedUntested, some 160, true, false⟩,
   ⟨"fprintf", 160, .discarded, none, false, false⟩]

/-- StructuralFacts of a function whose only defect is the fopen/fprintf
construct of sample_violations.c lines 158-161 (the hypotheses of the
Rule-7 location claim and of the deduplication claim). -/
def fopen_construct_facts : StructuralFacts where
  directly_recursive := false
  mutually_recursive := false
  loops := []
  uses_goto := false
  goto_target_count := 0
  max_pointer_depth := 1
  has_pointer_arithmetic := false
  statement_count := 3
  max_nesting_depth := 1
  parameter_count := 0
  assertion_count := 0
  validated_parameter_count := 0
  allocation_calls := []
  is_in_init_phase := false
  unchecked_fallible_calls := uncheckedFallibleCalls defaultConfig fopen_construct_calls
  macro_complexity_score := 0
  global_references := []
  warning_construct_locs := []

/-- Facts-level image of the edit "add one new unconditional goto to the
function": the goto flag is set and the target count grows; no other
structural fact of the function is touched. -/
def addGoto (f : StructuralFacts) : StructuralFacts :=
  { f with uses_goto := true, goto_target_count := f.goto_target_count + 1 }

/-- Body of the `while (1)` loop of `massive_function`
(sample_violations.c lines 122-126): an empty prefix, the internal
`if (...) break`, then the counter updates. -/
def massive_while_body : CStmt :=
  .seq .skip
  (.seq (.ifS 123 (.binop "==" (.ident "system_state") (.intLit 5)) (.breakS 123) .skip)
    (.seq (.expr 124 (.unop "++" (.ident "system_state")))
      (.ifS 125 (.binop ">" (.ident "system_state") (.intLit 10))
        (.expr 125 (.assignE (.ident "system_state") (.intLit 0))) .skip)))

/-- The `while (1)` statement of `massive_function` (sample_violations.c
line 122). -/
def massive_while_stmt : CStmt :=
  .whileS 122 (.intLit 1) massive_while_body

/-- Symbol of `massive_function` (sample_violations.c line 61). -/
def massive_sym : FunctionSymbol := ⟨"massive_function", 61⟩

/-- Loop facts of the `while (1)` fragment of `massive_function`; the other
fields of this record describe only the fragment, which is all the
loop-classification claim consults (the constant set plays no part in
classifying a `while (1)` header). -/
def massive_while_facts : StructuralFacts where
  directly_recursive := false
  mutually_recursive := false
  loops := allLoops compliantConsts massive_while_stmt
  uses_goto := false
  goto_target_count := 0
  max_pointer_depth := 0
  has_pointer_arithmetic := false
  statement_count := 5
  max_nesting_depth := 2
  parameter_count := 0
  assertion_count := 0
  validated_parameter_count := 0
  allocation_calls := []
  is_in_init_phase := false
  unchecked_fallible_calls := []
  macro_complexity_score := 0
  global_references := ["system_state"]
  warning_construct_locs := []

/-- Symbol of `count_valid_chars` (sample_compliant.c line 70). -/
def count_valid_sym : FunctionSymbol := ⟨"count_valid_chars", 70⟩

/-- Controlling condition of the `for` loop of `count_valid_chars`
(sample_compliant.c line 78): `i < len && i < MAX_BUFFER_SIZE`. -/
def count_valid_loop_cond : CExpr :=
  .binop "&&" (.binop "<" (.ident "i") (.ident "len"))
    (.binop "<" (.ident "i") (.ident "MAX_BUFFER_SIZE"))

/-- StructuralFacts of `count_valid_chars` (sample_compliant.c lines 70-85):
three assertions validating both parameters, a single bounded `for` loop. -/
def count_valid_facts : StructuralFacts where
  directly_recursive := false
  mutually_recursive := false
  loops := [⟨classifyLoop compliantConsts (some count_valid_loop_cond), 78⟩]
  uses_goto := false
  goto_target_count := 0
  max_pointer_depth := 1
  has_pointer_arithmetic := false
  statement_count := 6
  max_nesting_depth := 2
  parameter_count := 2
  assertion_count := 3
  validated_parameter_count := 2
  allocation_calls := []
  is_in_init_phase := false
  unchecked_fallible_calls := []
  macro_complexity_score := 0
  global_references := []
  warning_construct_locs := []

/-- Configuration with a nonsensical negative threshold, for the
configuration-atomicity claim. -/
def negativeConfig : Config :=
  { defaultConfig with max_global_count := -1 }

/-- Condition shape `i < n && i < CONSTANT` of the bounded-loop claim. -/
def forBoundCond (iv nv : String) (bnd : CExpr) : CExpr :=
  .binop "&&" (.binop "<" (.ident iv) (.ident nv)) (.binop "<" (.ident iv) bnd)

theorem rule1_id {sym : FunctionSymbol} {f : StructuralFacts} {v : Violation}
    (h : v ∈ rule1 sym f) : v.rule_id = 1 := by
  unfold rule1 at h
  rcases List.mem_append.1 h with h1 | h1 <;> (split at h1 <;> simp_all [mkV])

theorem rule2_id {sym : FunctionSymbol} {f : StructuralFacts} {v : Violation}
    (h : v ∈ rule2 sym f) : v.rule_id = 2 := by
  unfold rule2 at h
  rcases List.mem_filterMap.1 h with ⟨li, _, hli⟩
  split at hli
  · exact Option.noConfusion hli
  · rw [Option.some.injEq] at hli; subst hli; rfl

theorem rule3_id {sym : FunctionSymbol} {f : StructuralFacts} {v : Violation}
    (h : v ∈ rule3 sym f) : v.rule_id = 3 := by
  unfold rule3 at h
  rcases List.mem_filterMap.1 h with ⟨a, _, ha⟩
  split at ha
  · rw [Option.some.injEq] at ha; subst ha; rfl
  · exact Option.noConfusion ha

theorem rule4_id {cfg : Config} {sym : FunctionSymbol} {f : StructuralFacts} {v : Violation}
    (h : v ∈ rule4 cfg sym f) : v.rule_id = 4 := by
  unfold rule4 at h
  split at h <;> simp_all [mkV]

theorem rule5assert_id {sym : FunctionSymbol} {f : StructuralFacts} {v : Violation}
    (h : v ∈ rule5assert sym f) : v.rule_id = 5 := by
  unfold rule5assert at h
  split at h <;> simp_all [mkV]

theorem rule5downstream_id {sym : FunctionSymbol} {f : StructuralFacts} {v : Violation}
    (h : v ∈ rule5downstream sym f) : v.rule_id = 5 := by
  unfold rule5downstream at h
  rcases List.mem_filterMap.1 h with ⟨c, _, hc⟩
  split at hc
  · rw [Option.some.injEq] at hc; subst hc; rfl
  · exact Option.noConfusion hc

theorem rule7_id {sym : FunctionSymbol} {f : StructuralFacts} {v : Violation}
    (h : v ∈ rule7 sym f) : v.rule_id = 7 := by
  unfold rule7 at h
  rcases List.mem_map.1 h with ⟨c, _, hc⟩
  subst hc; rfl

theorem rule8_id {sym : FunctionSymbol} {f : StructuralFacts} {v : Violation}
    (h : v ∈ rule8 sym f) : v.rule_id = 8 := by
  unfold rule8 at h
  split at h <;> simp_all [mkV]

theorem rule9_id {sym : FunctionSymbol} {f : StructuralFacts} {v : Violation}
    (h : v ∈ rule9 sym f) : v.rule_id = 9 := by
  unfold rule9 at h
  split at h <;> simp_all [mkV]

theorem rule10_id {sym : FunctionSymbol} {f : StructuralFacts} {v : Violation}
    (h : v ∈ rule10 sym f) : v.rule_id = 10 := by
  unfold rule10 at h
  rcases List.mem_map.1 h with ⟨l, _, hl⟩
  subst hl; rfl

theorem mem_candidates {cfg : Config} {sym : FunctionSymbol} {f : StructuralFacts} {v : Violation}
    (h : v ∈ ruleCandidates cfg sym f) :
    v ∈ rule1 sym f ∨ v ∈ rule2 sym f ∨ v ∈ rule3 sym f ∨ v ∈ rule4 cfg sym f ∨
    v ∈ rule5assert sym f ∨ v ∈ rule5downstream sym f ∨ v ∈ rule7 sym f ∨
    v ∈ rule8 sym f ∨ v ∈ rule9 sym f ∨ v ∈ rule10 sym f := by
  simpa [ruleCandidates, List.mem_append, or_assoc] using h

theorem eval_rule_ids {cfg : Config} {sym : FunctionSymbol} {f : StructuralFacts} {v : Violation}
    (h : v ∈ evalFunction cfg sym f) :
    v.rule_id = 1 ∨ v.rule_id = 2 ∨ v.rule_id = 3 ∨ v.rule_id = 4 ∨ v.rule_id = 5 ∨
    v.rule_id = 7 ∨ v.rule_id = 8 ∨ v.rule_id = 9 ∨ v.rule_id = 10 := by
  unfold evalFunction dedupByRoot at h
  have h2 := (List.mem_filter.1 h).1
  rcases mem_candidates h2 with h3 | h3 | h3 | h3 | h3 | h3 | h3 | h3 | h3 | h3
  · exact Or.inl (rule1_id h3)
  · exact Or.inr (Or.inl (rule2_id h3))
  · exact Or.inr (Or.inr (Or.inl (rule3_id h3)))
  · exact Or.inr (Or.inr (Or.inr (Or.inl (rule4_id h3))))
  · exact Or.inr (Or.inr (Or.inr (Or.inr (Or.inl (rule5assert_id h3)))))
  · exact Or.inr (Or.inr (Or.inr (Or.inr (Or.inl (rule5downstream_id h3)))))
  · exact Or.inr (Or.inr (Or.inr (Or.inr (Or.inr (Or.inl (rule7_id h3))))))
  · exact Or.inr (Or.inr (Or.inr (Or.inr (Or.inr (Or.inr (Or.inl (rule8_id h3)))))))
  · exact Or.inr (Or.inr (Or.inr (Or.inr (Or.inr (Or.inr (Or.inr (Or.inl (rule9_id h3))))))))
  · exact Or.inr (Or.inr (Or.inr (Or.inr (Or.inr (Or.inr (Or.inr (Or.inr (rule10_id h3))))))))

theorem filter_all_false {p : Violation → Bool} {l : List Violation}
    (h : ∀ v ∈ l, p v = false) : l.filter p = [] :=
  List.filter_eq_nil_iff.2 (by intro a ha hb; rw [h a ha] at hb; exact Bool.noConfusion hb)

theorem filter_all_true {p : Violation → Bool} {l : List Violation}
    (h : ∀ v ∈ l, p v = true) : l.filter p = l :=
  List.filter_eq_self.2 h

theorem filter7_eval (cfg : Config) (sym : FunctionSymbol) (f : StructuralFacts) :
    (evalFunction cfg sym f).filter (fun v => v.rule_id == 7) = rule7 sym f := by
  unfold evalFunction dedupByRoot
  rw [List.filter_filter]
  unfold ruleCandidates
  simp only [List.filter_append]
  rw [filter_all_false (fun v hv => by simp [rule1_id hv]),
      filter_all_false (fun v hv => by simp [rule2_id hv]),
      filter_all_false (fun v hv => by simp [rule3_id hv]),
      filter_all_false (fun v hv => by simp [rule4_id hv]),
      filter_all_false (fun v hv => by simp [rule5assert_id hv]),
      filter_all_false (fun v hv => by simp [rule5downstream_id hv]),
      filter_all_true (fun v hv => by simp [rule7_id hv]),
      filter_all_false (fun v hv => by simp [rule8_id hv]),
      filter_all_false (fun v hv => by simp [rule9_id hv]),
      filter_all_false (fun v hv => by simp [rule10_id hv])]
  simp

theorem filter2_eval (cfg : Config) (sym : FunctionSymbol) (f : StructuralFacts) :
    (evalFunction cfg sym f).filter (fun v => v.rule_id == 2) = rule2 sym f := by
  unfold evalFunction dedupByRoot
  rw [List.filter_filter]
  unfold ruleCandidates
  simp only [List.filter_append]
  rw [filter_all_false (fun v hv => by simp [rule1_id hv]),
      filter_all_true (fun v hv => by simp [rule2_id hv]),
      filter_all_false (fun v hv => by simp [rule3_id hv]),
      filter_all_false (fun v hv => by simp [rule4_id hv]),
      filter_all_false (fun v hv => by simp [rule5assert_id hv]),
      filter_all_false (fun v hv => by simp [rule5downstream_id hv]),
      filter_all_false (fun v hv => by simp [rule7_id hv]),
      filter_all_false (fun v hv => by simp [rule8_id hv]),
      filter_all_false (fun v hv => by simp [rule9_id hv]),
      filter_all_false (fun v hv => by simp [rule10_id hv])]
  simp

theorem rule5downstream_root {sym : FunctionSymbol} {f : StructuralFacts} {v : Violation}
    (h : v ∈ rule5downstream sym f) : v.rootLoc ∈ uncheckedRoots f := by
  unfold rule5downstream at h
  rcases List.mem_filterMap.1 h with ⟨c, hc, heq⟩
  split at heq
  · rw [Option.some.injEq] at heq; subst heq
    exact List.mem_map.2 ⟨c, hc, rfl⟩
  · exact Option.noConfusion heq

theorem filter5_eval_nil (cfg : Config) (sym : FunctionSymbol) (f : StructuralFacts)
    (h1 : f.assertion_count = 0 → f.parameter_count = 0)
    (h2 : f.parameter_count ≤ f.validated_parameter_count) :
    (evalFunction cfg sym f).filter (fun v => v.rule_id == 5) = [] := by
  unfold evalFunction dedupByRoot
  rw [List.filter_filter]
  apply filter_all_false
  intro v hv
  rcases mem_candidates hv with h3 | h3 | h3 | h3 | h3 | h3 | h3 | h3 | h3 | h3
  · simp [rule1_id h3]
  · simp [rule2_id h3]
  · simp [rule3_id h3]
  · simp [rule4_id h3]
  · exfalso
    unfold rule5assert at h3
    split at h3
    · next hcond =>
      simp only [Bool.or_eq_true, Bool.and_eq_true, beq_iff_eq, decide_eq_true_eq] at hcond
      rcases hcond with ⟨ha, hp⟩ | hval
      · have := h1 ha; omega
      · omega
    · simp at h3
  · simp [rule5downstream_id h3, rule5downstream_root h3]
  · simp [rule7_id h3]
  · simp [rule8_id h3]
  · simp [rule9_id h3]
  · simp [rule10_id h3]

theorem filter2_eval_nonempty (cfg : Config) (sym : FunctionSymbol) (f : StructuralFacts)
    (h : ∃ li ∈ f.loops, li.shape.has_explicit_bound = false) :
    (evalFunction cfg sym f).filter (fun v => v.rule_id == 2) ≠ [] := by
  rcases h with ⟨li, hmem, hub⟩
  rw [filter2_eval]
  apply List.ne_nil_of_mem (a := mkV 2 sym.name li.loc li.loc .warning .certain "unbounded loop")
  unfold rule2
  exact List.mem_filterMap.2 ⟨li, hmem, by rw [hub]; rfl⟩

theorem violLE_trans (a b c : Violation) (h1 : violLE a b = true) (h2 : violLE b c = true) :
    violLE a c = true := by
  simp only [violLE, Bool.or_eq_true, Bool.and_eq_true, Nat.blt_eq, Nat.ble_eq,
    beq_iff_eq] at h1 h2 ⊢
  omega

theorem violLE_total (a b : Violation) : (violLE a b || violLE b a) = true := by
  simp only [violLE, Bool.or_eq_true, Bool.and_eq_true, Nat.blt_eq, Nat.ble_eq,
    beq_iff_eq] at *
  omega

/-- C1: for the fixture `factorial` (self-recursive, no iteration) the engine
reports exactly one Rule-1 violation with `directly_recursive = true`, and
`safe_factorial` (iterative, bounded `for` loop with two conjunctive bound
comparisons) receives no Rule-1 and no Rule-2 violation. -/
theorem claim_C1_factorial_classification :
    factorial_facts.directly_recursive = true ∧
    ((evalFunction defaultConfig factorial_sym factorial_facts).filter
      (fun v => v.rule_id == 1)).length = 1 ∧
    (evalFunction defaultConfig safe_factorial_sym safe_factorial_facts).filter
      (fun v => v.rule_id == 1) = [] ∧
    (evalFunction defaultConfig safe_factorial_sym safe_factorial_facts).filter
      (fun v => v.rule_id == 2) = [] := by
  decide

/-- C10: `process_data` loops only through `goto` back-edges; extraction
records `uses_goto = true` and a single never-bounded loop shape with
`contains_goto_backedge = true`, and the engine reports both one Rule-1 and
one Rule-2 violation for the function — deduplication does not collapse the
two rules into one report. -/
theorem claim_C10_goto_cycle_two_rules :
    process_data_facts.uses_goto = true ∧
    process_data_facts.loops = [⟨⟨false, .noBound, true⟩, 32⟩] ∧
    ((evalFunction defaultConfig process_data_sym process_data_facts).filter
      (fun v => v.rule_id == 1)).length = 1 ∧
    (evalFunction defaultConfig process_data_sym process_data_facts).filter
      (fun v => v.rule_id == 2) =
      [mkV 2 "process_data" 32 32 .warning .certain "unbounded loop"] := by
  decide

/-- C7 counterexample: the pipeline does not yield zero violations for every
function of sample_compliant.c — `log_processing_step` and `main` both come
back non-empty under the rule predicates of the specification. -/
theorem claim_C7_counterexample :
    ¬(evalFunction defaultConfig log_step_sym log_step_facts = [] ∧
      evalFunction defaultConfig main_compliant_sym main_compliant_facts = []) := by
  decide

/-- C7 amended: on sample_compliant.c the engine leaves `safe_factorial`
violation-free, but `log_processing_step` (two parameters, no assertions)
receives exactly one violation, a Rule-5 one, and `main` receives exactly two
violations, both Rule-7, for the bare expression-statement calls whose int
status results are discarded. -/
theorem claim_C7_amended_compliant_classification :
    evalFunction defaultConfig safe_factorial_sym safe_factorial_facts = [] ∧
    (evalFunction defaultConfig log_step_sym log_step_facts).length = 1 ∧
    (∀ v ∈ evalFunction defaultConfig log_step_sym log_step_facts, v.rule_id = 5) ∧
    (evalFunction defaultConfig main_compliant_sym main_compliant_facts).length = 2 ∧
    (∀ v ∈ evalFunction defaultConfig main_compliant_sym main_compliant_facts,
      v.rule_id = 7) := by
  decide

/-- C3: for a function whose unchecked fallible calls consist of the single
`fopen` acquisition assigned but never null-tested and first used downstream
(the construct of sample_violations.c lines 158-161), the engine yields
exactly one Rule-7 violation, located at the first use after the unchecked
acquisition (the `fprintf` line) and not at the `fopen` line. -/
theorem claim_C3_rule7_at_first_use (cfg : Config) (sym : FunctionSymbol)
    (f : StructuralFacts) (acqLoc useLoc : Nat)
    (hu : f.unchecked_fallible_calls = [⟨"fopen", acqLoc, some useLoc⟩])
    (hne : acqLoc ≠ useLoc) :
    (evalFunction cfg sym f).filter (fun v => v.rule_id == 7) =
      [mkV 7 sym.name useLoc acqLoc .warning .certain "fallible result not checked"] ∧
    useLoc ≠ acqLoc := by
  constructor
  · rw [filter7_eval]
    unfold rule7
    rw [hu]
    rfl
  · exact fun hx => hne hx.symm

/-- Witness for C3 at the concrete `unsafe_function` construct: the single
Rule-7 violation sits at line 160 (the `fprintf`), rooted at line 159 (the
`fopen`). -/
theorem claim_C3_witness :
    (evalFunction defaultConfig unsafe_function_sym fopen_construct_facts).filter
      (fun v => v.rule_id == 7) =
      [mkV 7 "unsafe_function" 160 159 .warning .certain "fallible result not checked"] ∧
    (160 : Nat) ≠ 159 :=
  claim_C3_rule7_at_first_use defaultConfig unsafe_function_sym fopen_construct_facts
    159 160 (by decide) (by decide)

/-- C4: for a function whose only defect is an unchecked `fopen` result
feeding an unguarded downstream use, the engine never emits both a Rule-5 and
a Rule-7 violation citing the same root-cause statement — the Rule-5
downstream candidate sharing the (function, root-cause-location) pair of a
Rule-7 report is deduplicated away. -/
theorem claim_C4_no_double_citation (cfg : Config) (sym : FunctionSymbol)
    (f : StructuralFacts) (acqLoc useLoc : Nat)
    (_hu : f.unchecked_fallible_calls = [⟨"fopen", acqLoc, some useLoc⟩])
    (ha : f.assertion_count = 0 → f.parameter_count = 0)
    (hv : f.parameter_count ≤ f.validated_parameter_count) :
    ¬ ∃ v ∈ evalFunction cfg sym f, ∃ w ∈ evalFunction cfg sym f,
        v.rule_id = 5 ∧ w.rule_id = 7 ∧ v.function = w.function ∧
        v.rootLoc = w.rootLoc := by
  rintro ⟨v, hvmem, w, hwmem, h5, -, -, -⟩
  have hnil := filter5_eval_nil cfg sym f ha hv
  have hvin : v ∈ (evalFunction cfg sym f).filter (fun x => x.rule_id == 5) :=
    List.mem_filter.2 ⟨hvmem, by simp [h5]⟩
  rw [hnil] at hvin
  exact absurd hvin (List.not_mem_nil v)

/-- Witness for C4 at the concrete `unsafe_function` construct facts. -/
theorem claim_C4_witness :
    ¬ ∃ v ∈ evalFunction defaultConfig unsafe_function_sym fopen_construct_facts,
      ∃ w ∈ evalFunction defaultConfig unsafe_function_sym fopen_construct_facts,
        v.rule_id = 5 ∧ w.rule_id = 7 ∧ v.function = w.function ∧
        v.rootLoc = w.rootLoc :=
  claim_C4_no_double_citation defaultConfig unsafe_function_sym fopen_construct_facts
    159 160 (by decide) (fun _ => rfl) (by decide)

/-- C5: the RuleEngine is a pure function whose violation sequence is sorted
by source location ascending then rule id ascending, and two runs on the same
unchanged input produce identical, identically ordered sequences. -/
theorem claim_C5_sorted_deterministic (cfg : Config)
    (funcs : List (FunctionSymbol × StructuralFacts)) (totalGlobals : Nat) :
    List.Pairwise (fun v w => violLE v w = true) (ruleEngine cfg funcs totalGlobals) ∧
    ruleEngine cfg funcs totalGlobals = ruleEngine cfg funcs totalGlobals := by
  constructor
  · unfold ruleEngine
    exact List.sorted_mergeSort violLE_trans violLE_total _
  · rfl

/-- C6: Rule 6 is evaluated on the aggregate global count and reported once
per translation unit — whatever the per-function facts, a run with 5 globals
under the default ceiling of 10 contains zero Rule-6 violations and a run
with 11 globals contains exactly one Rule-6 violation in the whole output. -/
theorem claim_C6_rule6_aggregate (funcs : List (FunctionSymbol × StructuralFacts)) :
    (ruleEngine defaultConfig funcs 5).countP (fun v => v.rule_id == 6) = 0 ∧
    (ruleEngine defaultConfig funcs 11).countP (fun v => v.rule_id == 6) = 1 := by
  have key : ∀ g : Nat,
      (ruleEngine defaultConfig funcs g).countP (fun v => v.rule_id == 6) =
      (rule6 defaultConfig g).countP (fun v => v.rule_id == 6) := by
    intro g
    unfold ruleEngine
    rw [List.Perm.countP_eq (fun v => v.rule_id == 6) (List.mergeSort_perm _ violLE)]
    rw [List.countP_append]
    have hz : (funcs.flatMap fun p => evalFunction defaultConfig p.1 p.2).countP
        (fun v => v.rule_id == 6) = 0 := by
      rw [List.countP_eq_zero]
      intro v hv
      rcases List.mem_flatMap.1 hv with ⟨p, -, hvp⟩
      have hids := eval_rule_ids hvp
      simp only [beq_iff_eq]
      omega
    rw [hz, Nat.zero_add]
  refine ⟨?_, ?_⟩ <;> rw [key] <;> decide

/-- C2: a `while(1)` loop with an internal `if (...) break` is classified
unbounded (`has_explicit_bound = false`, triggering Rule 2), while a `for`
loop whose condition has the shape `i < n && i < CONSTANT` — the ceiling a
literal or a named constant — is classified bounded and produces no Rule-2
violation. -/
theorem claim_C2_loop_classification
    (consts : List String) (wloc il bl floc : Nat) (c : CExpr) (pre post : CStmt)
    (iv nv : String) (bnd : CExpr) (cfg : Config) (symW symF : FunctionSymbol)
    (fW fF : StructuralFacts)
    (hbnd : (∃ k, bnd = CExpr.intLit k) ∨
            (∃ nm, bnd = CExpr.ident nm ∧ consts.contains nm = true))
    (hiv : consts.contains iv = false) (hnv : consts.contains nv = false)
    (hW : fW.loops = allLoops consts (CStmt.whileS wloc (.intLit 1)
            (.seq pre (.seq (.ifS il c (.breakS bl) .skip) post))))
    (hF : fF.loops = [⟨classifyLoop consts (some (forBoundCond iv nv bnd)), floc⟩]) :
    (classifyLoop consts (some (CExpr.intLit 1))).has_explicit_bound = false ∧
    (∃ li ∈ fW.loops, li.loc = wloc ∧ li.shape.has_explicit_bound = false) ∧
    (evalFunction cfg symW fW).filter (fun v => v.rule_id == 2) ≠ [] ∧
    (classifyLoop consts (some (forBoundCond iv nv bnd))).has_explicit_bound = true ∧
    (classifyLoop consts (some (forBoundCond iv nv bnd))).contains_goto_backedge = false ∧
    (evalFunction cfg symF fF).filter (fun v => v.rule_id == 2) = [] := by
  have h1 : (classifyLoop consts (some (CExpr.intLit 1))).has_explicit_bound = false := rfl
  have hmem : (⟨classifyLoop consts (some (CExpr.intLit 1)), wloc⟩ : LoopInfo) ∈ fW.loops := by
    rw [hW]
    unfold allLoops
    apply List.mem_append_left
    simp [extractLoops]
  have hiv2 : iv ∉ consts := by simpa using hiv
  have hnv2 : nv ∉ consts := by simpa using hnv
  have hbound : (classifyLoop consts (some (forBoundCond iv nv bnd))).has_explicit_bound
      = true := by
    rcases hbnd with ⟨k, rfl⟩ | ⟨nm, rfl, hnm⟩
    · simp [classifyLoop, forBoundCond, condBound, isCmpOp, isLitOperand, isConstOperand,
        bsJoin, bsRank, hiv2, hnv2]
    · have hnm2 : nm ∈ consts := by simpa using hnm
      simp [classifyLoop, forBoundCond, condBound, isCmpOp, isLitOperand, isConstOperand,
        bsJoin, bsRank, hiv2, hnv2, hnm2]
  refine ⟨h1, ⟨_, hmem, rfl, h1⟩,
    filter2_eval_nonempty cfg symW fW ⟨_, hmem, h1⟩, hbound, rfl, ?_⟩
  rw [filter2_eval]
  unfold rule2
  rw [hF]
  simp [hbound]

/-- Witness for C2: the `while (1)` of `massive_function` (line 122) is
classified unbounded and draws a Rule-2 violation; the `for` of
`count_valid_chars` with condition `i < len && i < MAX_BUFFER_SIZE`
(line 78) is classified bounded and draws none. -/
theorem claim_C2_witness :
    (classifyLoop compliantConsts (some (CExpr.intLit 1))).has_explicit_bound = false ∧
    (∃ li ∈ massive_while_facts.loops, li.loc = 122 ∧ li.shape.has_explicit_bound = false) ∧
    (evalFunction defaultConfig massive_sym massive_while_facts).filter
      (fun v => v.rule_id == 2) ≠ [] ∧
    (classifyLoop compliantConsts
      (some (forBoundCond "i" "len" (.ident "MAX_BUFFER_SIZE")))).has_explicit_bound = true ∧
    (classifyLoop compliantConsts
      (some (forBoundCond "i" "len" (.ident "MAX_BUFFER_SIZE")))).contains_goto_backedge
      = false ∧
    (evalFunction defaultConfig count_valid_sym count_valid_facts).filter
      (fun v => v.rule_id == 2) = [] :=
  claim_C2_loop_classification compliantConsts 122 123 123 78
    (.binop "==" (.ident "system_state") (.intLit 5)) .skip
    (.seq (.expr 124 (.unop "++" (.ident "system_state")))
      (.ifS 125 (.binop ">" (.ident "system_state") (.intLit 10))
        (.expr 125 (.assignE (.ident "system_state") (.intLit 0))) .skip))
    "i" "len" (.ident "MAX_BUFFER_SIZE") defaultConfig massive_sym count_valid_sym
    massive_while_facts count_valid_facts
    (Or.inr ⟨"MAX_BUFFER_SIZE", rfl, by decide⟩) (by decide) (by decide) rfl rfl

set_option maxHeartbeats 1600000 in
/-- C8: adding one new unconditional `goto` to a function that previously had
none never removes any previously reported violation and adds a new Rule-1
violation for that function. -/
theorem claim_C8_goto_monotonicity (cfg : Config) (sym : FunctionSymbol)
    (f : StructuralFacts) (h : f.uses_goto = false) :
    (∀ v ∈ evalFunction cfg sym f, v ∈ evalFunction cfg sym (addGoto f)) ∧
    (∃ v ∈ evalFunction cfg sym (addGoto f),
      v.rule_id = 1 ∧ v ∉ evalFunction cfg sym f) := by
  have e1 : rule1 sym f =
      (if f.directly_recursive || f.mutually_recursive then
        [mkV 1 sym.name sym.loc sym.loc .error .certain "recursion cycle"] else []) := by
    unfold rule1
    rw [h]
    simp
  have e1g : rule1 sym (addGoto f) =
      (if f.directly_recursive || f.mutually_recursive then
        [mkV 1 sym.name sym.loc sym.loc .error .certain "recursion cycle"] else []) ++
      [mkV 1 sym.name sym.loc sym.loc .error .certain "goto used"] := rfl
  have e2 : rule2 sym (addGoto f) = rule2 sym f := rfl
  have e3 : rule3 sym (addGoto f) = rule3 sym f := rfl
  have e4 : rule4 cfg sym (addGoto f) = rule4 cfg sym f := rfl
  have e5a : rule5assert sym (addGoto f) = rule5assert sym f := rfl
  have e5d : rule5downstream sym (addGoto f) = rule5downstream sym f := rfl
  have e7 : rule7 sym (addGoto f) = rule7 sym f := rfl
  have e8 : rule8 sym (addGoto f) = rule8 sym f := rfl
  have e9 : rule9 sym (addGoto f) = rule9 sym f := rfl
  have e10 : rule10 sym (addGoto f) = rule10 sym f := rfl
  have eroots : uncheckedRoots (addGoto f) = uncheckedRoots f := rfl
  constructor
  · intro v hv
    unfold evalFunction dedupByRoot ruleCandidates at hv ⊢
    rw [List.mem_filter] at hv ⊢
    have hv1 := hv.1
    rw [e1] at hv1
    simp only [eroots]
    refine ⟨?_, hv.2⟩
    rw [e1g, e2, e3, e4, e5a, e5d, e7, e8, e9, e10]
    simp only [List.mem_append] at hv1 ⊢
    tauto
  · refine ⟨mkV 1 sym.name sym.loc sym.loc .error .certain "goto used", ?_, rfl, ?_⟩
    · unfold evalFunction dedupByRoot ruleCandidates
      rw [List.mem_filter]
      constructor
      · rw [e1g, e2, e3, e4, e5a, e5d, e7, e8, e9, e10]
        have hg : mkV 1 sym.name sym.loc sym.loc .error .certain "goto used" ∈
            [mkV 1 sym.name sym.loc sym.loc .error .certain "goto used"] :=
          List.mem_singleton.2 rfl
        simp only [List.mem_append]
        tauto
      · simp [mkV]
    · intro hmem
      unfold evalFunction dedupByRoot ruleCandidates at hmem
      have h1 := (List.mem_filter.1 hmem).1
      rw [e1] at h1
      simp only [List.mem_append] at h1
      have hgne : ("goto used" : String) ≠ "recursion cycle" := by decide
      rcases h1 with ((((((((h1 | h1) | h1) | h1) | h1) | h1) | h1) | h1) | h1) | h1
      · split at h1
        · have hx := List.mem_singleton.1 h1
          exact hgne (congrArg Violation.message hx)
        · exact absurd h1 (List.not_mem_nil _)
      · have hx := rule2_id h1; simp [mkV] at hx
      · have hx := rule3_id h1; simp [mkV] at hx
      · have hx := rule4_id h1; simp [mkV] at hx
      · have hx := rule5assert_id h1; simp [mkV] at hx
      · have hx := rule5downstream_id h1; simp [mkV] at hx
      · have hx := rule7_id h1; simp [mkV] at hx
      · have hx := rule8_id h1; simp [mkV] at hx
      · have hx := rule9_id h1; simp [mkV] at hx
      · have hx := rule10_id h1; simp [mkV] at hx

/-- Witness for C8 at `factorial`, which has no goto: the edit keeps the
recursion violation and adds the Rule-1 goto violation. -/
theorem claim_C8_witness :
    (∀ v ∈ evalFunction defaultConfig factorial_sym factorial_facts,
      v ∈ evalFunction defaultConfig factorial_sym (addGoto factorial_facts)) ∧
    (∃ v ∈ evalFunction defaultConfig factorial_sym (addGoto factorial_facts),
      v.rule_id = 1 ∧ v ∉ evalFunction defaultConfig factorial_sym factorial_facts) :=
  claim_C8_goto_monotonicity defaultConfig factorial_sym factorial_facts (by decide)

/-- C9: a configuration with a nonsensical (negative) threshold makes the
analysis fail with a ConfigurationError before any function is processed and
emit no violations, while a valid configuration always yields a result for
every function — the run is never aborted by any function's facts. -/
theorem claim_C9_config_atomicity (cfg : Config)
    (funcs : List (FunctionSymbol × StructuralFacts)) (totalGlobals : Nat) :
    (configInvalid cfg = true →
      analyze cfg funcs totalGlobals =
        Except.error ConfigurationError.negativeThreshold) ∧
    (configInvalid cfg = false →
      analyze cfg funcs totalGlobals = Except.ok (ruleEngine cfg funcs totalGlobals)) := by
  constructor <;> intro h <;> simp [analyze, validateConfig, h]

/-- Witness for C9: the negative ceiling is rejected up front, the default
configuration runs to a result. -/
theorem claim_C9_witness :
    analyze negativeConfig [] 0 = Except.error ConfigurationError.negativeThreshold ∧
    analyze defaultConfig [(factorial_sym, factorial_facts)] 5 =
      Except.ok (ruleEngine defaultConfig [(factorial_sym, factorial_facts)] 5) :=
  ⟨(claim_C9_config_atomicity negativeConfig [] 0).1 (by decide),
   (claim_C9_config_atomicity defaultConfig [(factorial_sym, factorial_facts)] 5).2
     (by decide)⟩
